import Mathlib

/-!
Verification of the kim field / nested-pipeline specification.

The development shallowly embeds the repository's `kim/field.py` (present in
the source tree) and, for the nested-field pipeline, role algebra and mapper
registry (whose implementation modules are not in the source tree, only their
tests), models the behaviour from the specification document.  Structured
values are association lists of string keys; Python `None`-or-string options
are `Option String` with Python truthiness made explicit.
-/

namespace Kim

/-- Structured values flowing through marshal/serialize: either an atomic
value (modelled as a string payload) or a nested object, which is an
association list from string keys to values. -/
inductive Value where
  | vstr (s : String) : Value
  | vobj (fields : List (String × Value)) : Value

/-- An object / dict: an association list from string keys to values. -/
abbrev Obj := List (String × Value)

/-- Look a key up in an object (first match wins, like a dict read). -/
def lookup (o : Obj) (k : String) : Option Value :=
  match o with
  | [] => none
  | (k', v) :: rest => if k' == k then some v else lookup rest k

/-- Set a key in an object: replace the first existing binding in place,
otherwise append the new binding at the end (dict write semantics with
insertion order preserved). -/
def setKey (o : Obj) (k : String) (v : Value) : Obj :=
  match o with
  | [] => [(k, v)]
  | (k', v') :: rest =>
      if k' == k then (k', v) :: rest else (k', v') :: setKey rest k v

/-- The exception taxonomy of `kim/exception.py` that the claims touch:
`FieldError` (configuration / naming errors), `FieldInvalid` (per-field
data errors during marshal) and `MapperError` (mapper reference lookup
failures). -/
inductive KimError where
  | fieldError (msg : String) : KimError
  | fieldInvalid (msg : String) : KimError
  | mapperError (msg : String) : KimError
deriving DecidableEq

/-- Python truthiness of an optional string: `None` and the empty string
are falsy, any other string is truthy. -/
def pyTruthy : Option String → Bool
  | none => false
  | some s => !(s == "")

/-- Python `x or y` on optional strings: `y` exactly when `x` is falsy. -/
def pyOr (x y : Option String) : Option String :=
  if pyTruthy x then x else y

/-- Embedding of `FieldOpts` from `kim/field.py`: the naming triple set by
`set_name` plus the remaining configuration flags set in `__init__`. -/
structure FieldOpts where
  attribute_name : Option String
  name : Option String
  source : Option String
  required : Bool
  allow_none : Bool
  read_only : Bool

/-- `FieldOpts.set_name` from `kim/field.py`: sets `attribute_name`, then
`name = name or attribute_name`, then `source = source or name`. -/
def FieldOpts.set_name (o : FieldOpts) (name : Option String)
    (attribute_name : Option String := none) (src : Option String := none) :
    FieldOpts :=
  let a := attribute_name
  let n := pyOr name a
  { o with attribute_name := a, name := n, source := pyOr src n }

/-- `FieldOpts.get_name` from `kim/field.py`: returns the `name` property
set by `set_name`. -/
def FieldOpts.get_name (o : FieldOpts) : Option String :=
  o.name

/-- `FieldOpts.__init__` from `kim/field.py`: pops `name`, `attribute_name`
and `source` and feeds them to `set_name`, then sets the remaining flags.
The base-class `validate()` is a no-op, so construction never fails. -/
def FieldOpts.init (name attribute_name src : Option String)
    (required : Bool := false) (allow_none : Bool := true)
    (read_only : Bool := false) : FieldOpts :=
  (FieldOpts.set_name
    { attribute_name := none, name := none, source := none,
      required := required, allow_none := allow_none, read_only := read_only }
    name attribute_name src)

/-- The `Field.name` property getter from `kim/field.py`: returns the
resolved name from `FieldOpts.get_name`, raising `FieldError` when that
value is falsy (absent or empty). -/
def Field.name_get (o : FieldOpts) : Except KimError String :=
  match o.get_name with
  | some s =>
      if s == "" then
        .error (.fieldError "Field requires name or attribute_name")
      else .ok s
  | none => .error (.fieldError "Field requires name or attribute_name")

/-- The `Field.name` property setter from `kim/field.py`: delegates to
`FieldOpts.set_name(name)` with `attribute_name` and `source` left at their
`None` defaults. -/
def Field.name_set (o : FieldOpts) (n : String) : FieldOpts :=
  o.set_name (some n)

/-- Modelled from the spec: the processing direction of a pipeline run,
`marshal` (input pipeline) or `serialize` (output pipeline). -/
inductive Direction where
  | marshal : Direction
  | serialize : Direction
deriving DecidableEq

/-- Modelled from the spec: a role entry is either a plain field name or a
`nested_role(field_name, role=?, serialize_role=?)` marker carrying optional
role overrides for that nested field (the `role.py` module is not in the
source tree). -/
inductive RoleEntry where
  | plain (name : String) : RoleEntry
  | nestedMarker (name : String) (role : Option String)
      (serializeRole : Option String) : RoleEntry

/-- Modelled from the spec: a simple (string-like) child field of a nested
mapper, carrying the naming pair and the `required` / `read_only` flags the
pipeline stages consult. Marshal reads input by `name` and writes output by
`source`; serialize reads by `source` and writes by `name`. -/
structure SimpleField where
  name : String
  source : String
  required : Bool := false
  read_only : Bool := false

/-- Modelled from the spec: an entry of the process-wide mapper registry is
either a genuine mapper class (its declared fields) or some unrelated object
that does not satisfy the mapper capability. -/
inductive MapperClass where
  | mapper (fields : List SimpleField) : MapperClass
  | notAMapper : MapperClass

/-- Modelled from the spec: a nested field's mapper reference is either a
class object used directly or a string name resolved at first use against
the process-wide registry. -/
inductive MapperRef where
  | direct (cls : MapperClass) : MapperRef
  | byName (n : String) : MapperRef

/-- The process-wide mapper registry keyed by class name. -/
abbrev Registry := List (String × MapperClass)

/-- Look a mapper name up in the registry. -/
def regLookup (reg : Registry) (n : String) : Option MapperClass :=
  match reg with
  | [] => none
  | (k, c) :: rest => if k == n then some c else regLookup rest n

/-- Modelled from the spec: constructing a Nested field takes no registry
argument at all — the mapper reference is merely stored, never resolved, so
construction never consults the registry and never fails for an unknown
name. The naming options go through the `FieldOpts` machinery of
`kim/field.py`. -/
def nested_construct (ref : MapperRef)
    (name attribute_name src : Option String) :
    Except KimError (MapperRef × FieldOpts) :=
  .ok (ref, FieldOpts.init name attribute_name src)

/-- Modelled from the spec: `get_mapper` resolves the mapper reference at
first use. A class object is used directly; a string name is looked up in
the registry. Resolution fails with `MapperError` when the name is
unregistered or the referenced object is not a valid mapper type (the
`mapper.py` module is not in the source tree). -/
def get_mapper (reg : Registry) (ref : MapperRef) :
    Except KimError (List SimpleField) :=
  match ref with
  | .direct (.mapper fs) => .ok fs
  | .direct .notAMapper => .error (.mapperError "not a valid mapper type")
  | .byName n =>
      match regLookup reg n with
      | some (.mapper fs) => .ok fs
      | some .notAMapper => .error (.mapperError "not a valid mapper type")
      | none => .error (.mapperError "mapper is not registered")

/-- Modelled from the spec: configuration of a Nested field — the resolved
naming pair, the optional recursive `role` / `serialize_role` FieldOpts, the
optional `getter` resolving an existing child object from the nested input
data, and the create/update permission flags (the `pipelines/nested.py`
module is not in the source tree). -/
structure NestedOpts where
  name : String
  source : String
  role : Option String := none
  serialize_role : Option String := none
  getter : Option (Obj → Option Obj) := none
  allow_create : Bool := false
  allow_updates : Bool := false
  allow_updates_in_place : Bool := false
  allow_partial_updates : Bool := false
  read_only : Bool := false

/-- Find the first `nested_role` marker for the given field name among the
active role's entries, returning its `(role, serialize_role)` pair. -/
def find_marker (entries : List RoleEntry) (fieldName : String) :
    Option (Option String × Option String) :=
  match entries with
  | [] => none
  | .plain _ :: rest => find_marker rest fieldName
  | .nestedMarker n r sr :: rest =>
      if n == fieldName then some (r, sr) else find_marker rest fieldName

/-- Modelled from the spec: `get_nested_role_for(direction, session, field)`
resolves the child role governing recursive processing of a nested field.
If the session's active role contains a `nested_role` marker for the field,
the marker's overrides take precedence; for the serialize direction
`serialize_role` is preferred over plain `role` at both the marker level and
the field-opts level; for marshal only `role` applies; with no source at all
the child mapper runs unrestricted (`kim/pipelines/nested.py` is not in the
source tree). -/
def get_nested_role_for (d : Direction) (activeRole : List RoleEntry)
    (f : NestedOpts) : Option String :=
  match find_marker activeRole f.name with
  | some (mr, msr) =>
      match d with
      | .serialize => msr <|> mr <|> f.serialize_role <|> f.role
      | .marshal => mr <|> f.role
  | none =>
      match d with
      | .serialize => f.serialize_role <|> f.role
      | .marshal => f.role

/-- Modelled from the spec: the marshal pipeline of one simple child field.
Read-only fields are skipped entirely; a value present in the input is
written to the output under the field's `source`; an absent value is left
untouched under a partial marshal, raises `FieldInvalid` when the field is
required, and is otherwise skipped (no default configured). -/
def marshal_simple_field (f : SimpleField) (isPartial : Bool)
    (data out : Obj) : Except KimError Obj :=
  if f.read_only then .ok out
  else
    match lookup data f.name with
    | some v => .ok (setKey out f.source v)
    | none =>
        if isPartial then .ok out
        else if f.required then
          .error (.fieldInvalid "This is a required field")
        else .ok out

/-- Modelled from the spec: a child mapper's marshal run — the declared
fields are processed in declaration order, each field's input pipeline
updating the output object, with the first field invalidity aborting the
nested marshal. `init` is the object marshaled onto (empty for creation, the
existing child object for updates). -/
def mapper_marshal (fields : List SimpleField) (isPartial : Bool)
    (data init : Obj) : Except KimError Obj :=
  match fields with
  | [] => .ok init
  | f :: rest =>
      match marshal_simple_field f isPartial data init with
      | .ok out => mapper_marshal rest isPartial data out
      | .error e => .error e

/-- Modelled from the spec: the serialize pipeline of one simple child
field — read the object by `source`, write the output by `name`, omitting
the key when the value is absent. `read_only` is never consulted during
serialize. -/
def serialize_simple_field (f : SimpleField) (obj out : Obj) : Obj :=
  match lookup obj f.source with
  | some v => setKey out f.name v
  | none => out

/-- Modelled from the spec: a child mapper's serialize run over its declared
fields in declaration order. -/
def mapper_serialize (fields : List SimpleField) (obj init : Obj) : Obj :=
  match fields with
  | [] => init
  | f :: rest => mapper_serialize rest obj (serialize_simple_field f obj init)

/-- Modelled from the spec: resolution of an existing child object for a
nested marshal. A configured `getter` is invoked on the nested input data;
without a getter, the update-in-place modes (`allow_updates_in_place`, or
`allow_partial_updates` under a partial call) look the child object up in
the output container, where it already lives; otherwise no existing-object
lookup is attempted. -/
def resolve_existing (opts : NestedOpts) (isPartial : Bool) (out nd : Obj) :
    Option Obj :=
  match opts.getter with
  | some g => g nd
  | none =>
      if opts.allow_updates_in_place ||
          (opts.allow_partial_updates && isPartial) then
        match lookup out opts.source with
        | some (.vobj e) => some e
        | _ => none
      else none

/-- Modelled from the spec: the nested resolution state machine for one
marshal call, given the nested input data and the resolved existing child
object. Returns the child object to place in the output together with the
final state of the referenced existing object (`none` when no existing
object was involved). With an existing object, `allow_updates` (or the
in-place / partial-update modes) marshal the incoming data onto it and the
referenced object is updated consistently; otherwise the existing object
passes through unmodified. With no existing object, `allow_create` marshals
a brand-new child from empty, and otherwise the marshal fails with
`FieldInvalid`. A partial enclosing call propagates `partial` to the nested
marshal only when `allow_partial_updates` is set. -/
def nested_core (opts : NestedOpts) (fields : List SimpleField)
    (isPartial : Bool) (nd : Obj) (existing : Option Obj) :
    Except KimError (Obj × Option Obj) :=
  let childPartial := isPartial && opts.allow_partial_updates
  match existing with
  | some e =>
      if opts.allow_updates then
        (mapper_marshal fields childPartial nd e).map (fun m => (m, some m))
      else if opts.allow_updates_in_place ||
          (opts.allow_partial_updates && isPartial) then
        (mapper_marshal fields childPartial nd e).map (fun m => (m, some m))
      else .ok (e, some e)
  | none =>
      if opts.allow_create then
        (mapper_marshal fields childPartial nd []).map (fun m => (m, none))
      else .error (.fieldInvalid "nested object not found")

/-- Modelled from the spec: the full marshal of a Nested field against the
parent data and output container. Read-only nested fields are skipped
before the pipeline runs at all; the nested input is read from the parent
data under the field's name (absent input skips the field); with
`source == '__self__'` the child mapper marshals directly into the parent
output container (flattening), otherwise the resolved child object is
written under the field's `source` key. The returned pair is the parent
output and the final state of the referenced existing object. -/
def field_marshal_nested (opts : NestedOpts) (fields : List SimpleField)
    (isPartial : Bool) (data out : Obj) :
    Except KimError (Obj × Option Obj) :=
  if opts.read_only then .ok (out, none)
  else
    match lookup data opts.name with
    | some (.vobj nd) =>
        if opts.source == "__self__" then
          (mapper_marshal fields (isPartial && opts.allow_partial_updates)
            nd out).map (fun m => (m, none))
        else
          match nested_core opts fields isPartial nd
              (resolve_existing opts isPartial out nd) with
          | .ok (c, r) => .ok (setKey out opts.source (.vobj c), r)
          | .error e => .error e
    | _ => .ok (out, none)

/-- Whether an `Except` computation succeeded. -/
def exceptOk {α : Type} (e : Except KimError α) : Bool :=
  match e with
  | .ok _ => true
  | .error _ => false

/-- Modelled from the spec: the serialize direction of a Nested field has no
branching — the child object is read from the parent object under the
field's `source`, recursively serialized, and written under the field's
`name`; an absent child omits the key entirely. The `read_only` flag is
never consulted: read-only fields are skipped only during marshal. -/
def field_serialize_nested (opts : NestedOpts) (fields : List SimpleField)
    (obj out : Obj) : Obj :=
  if opts.source == "__self__" then mapper_serialize fields obj out
  else
    match lookup obj opts.source with
    | some (.vobj o) => setKey out opts.name (.vobj (mapper_serialize fields o []))
    | _ => out

end Kim

namespace Kim

/-- C8: `set_name` resolves the name with precedence `name` over
`attribute_name` (the truthy `name` option wins, otherwise the
`attribute_name` option is used), the `source` option defaults to the
resolved name when not given, and `get_name` returns the resolved name. -/
theorem fieldopts_set_name_precedence
    (name attribute_name src : Option String) :
    (∀ s : String, name = some s → s ≠ "" →
      (FieldOpts.init name attribute_name src).get_name = some s) ∧
    (pyTruthy name = false →
      (FieldOpts.init name attribute_name src).get_name = attribute_name) ∧
    (src = none →
      (FieldOpts.init name attribute_name src).source =
        (FieldOpts.init name attribute_name src).get_name) ∧
    (FieldOpts.init name attribute_name src).get_name =
      (FieldOpts.init name attribute_name src).name := by
  refine ⟨?_, ?_, ?_, rfl⟩
  · intro s hn hs
    simp [FieldOpts.init, FieldOpts.set_name, FieldOpts.get_name, hn,
      pyOr, pyTruthy, hs]
  · intro h
    simp [FieldOpts.init, FieldOpts.set_name, FieldOpts.get_name, pyOr, h]
  · intro h
    simp [FieldOpts.init, FieldOpts.set_name, FieldOpts.get_name, h, pyOr,
      pyTruthy]

theorem fieldopts_set_name_precedence_witness :
    (FieldOpts.init (some "bob") (some "alice") none).get_name = some "bob" ∧
    (FieldOpts.init none (some "alice") none).get_name = some "alice" ∧
    (FieldOpts.init (some "bob") (some "alice") none).source = some "bob" := by
  refine ⟨(fieldopts_set_name_precedence (some "bob") (some "alice") none).1
      "bob" rfl (by decide), ?_, ?_⟩
  · exact (fieldopts_set_name_precedence none (some "alice") none).2.1 (by decide)
  · have h := fieldopts_set_name_precedence (some "bob") (some "alice") none
    have hs := h.2.2.1 rfl
    have hn := h.1 "bob" rfl (by decide)
    rw [hs, hn]

/-- C9: a field constructed with neither a `name` nor an `attribute_name`
option constructs without error (base `validate` is a no-op) but its name is
unresolvable: the `Field.name` property getter raises `FieldError`, for any
values of the remaining options. -/
theorem field_name_unresolvable_raises
    (src : Option String) (required allow_none read_only : Bool) :
    ∃ msg, Field.name_get
        (FieldOpts.init none none src required allow_none read_only) =
      .error (.fieldError msg) := by
  refine ⟨"Field requires name or attribute_name", ?_⟩
  simp [FieldOpts.init, FieldOpts.set_name, FieldOpts.get_name,
    Field.name_get, pyOr, pyTruthy]

/-- C10: assigning a (non-empty) new value through the `Field.name` setter
resets `attribute_name` to `None` and `source` to the new name, discarding
whatever `attribute_name` or explicitly configured `source` the field had
before the assignment. -/
theorem field_name_setter_resets
    (o : FieldOpts) (n : String) (h : n ≠ "") :
    (Field.name_set o n).attribute_name = none ∧
    (Field.name_set o n).name = some n ∧
    (Field.name_set o n).source = some n := by
  refine ⟨rfl, ?_, ?_⟩ <;>
    simp [Field.name_set, FieldOpts.set_name, pyOr, pyTruthy, h]

/-- C1: for the serialize direction, `get_nested_role_for` resolves the
governing child role by the fixed precedence marker `serialize_role` >
marker `role` > field-level `serialize_role` > field-level `role` > none;
in particular a present marker-level `serialize_role` is returned no matter
which other role sources are present. -/
theorem nested_role_precedence
    (entries : List RoleEntry) (f : NestedOpts) :
    (∀ mr msr, find_marker entries f.name = some (mr, msr) →
      (∀ r, msr = some r →
        get_nested_role_for .serialize entries f = some r) ∧
      (msr = none → ∀ r, mr = some r →
        get_nested_role_for .serialize entries f = some r) ∧
      (msr = none → mr = none → ∀ r, f.serialize_role = some r →
        get_nested_role_for .serialize entries f = some r) ∧
      (msr = none → mr = none → f.serialize_role = none →
        get_nested_role_for .serialize entries f = f.role)) ∧
    (find_marker entries f.name = none →
      (∀ r, f.serialize_role = some r →
        get_nested_role_for .serialize entries f = some r) ∧
      (f.serialize_role = none →
        get_nested_role_for .serialize entries f = f.role)) := by
  constructor
  · intro mr msr h
    refine ⟨?_, ?_, ?_, ?_⟩
    · intro r hr
      simp [get_nested_role_for, h, hr, Option.orElse]
    · intro hmsr r hr
      simp [get_nested_role_for, h, hmsr, hr, Option.orElse]
    · intro hmsr hmr r hr
      simp [get_nested_role_for, h, hmsr, hmr, hr, Option.orElse]
    · intro hmsr hmr hsr
      simp [get_nested_role_for, h, hmsr, hmr, hsr, Option.orElse]
  · intro h
    refine ⟨?_, ?_⟩
    · intro r hr
      simp [get_nested_role_for, h, hr, Option.orElse]
    · intro hsr
      simp [get_nested_role_for, h, hsr, Option.orElse]

theorem nested_role_precedence_witness :
    get_nested_role_for .serialize
      [RoleEntry.nestedMarker "user" none (some "name")]
      { name := "user", source := "user",
        role := some "id", serialize_role := some "id" } = some "name" :=
  ((nested_role_precedence
      [RoleEntry.nestedMarker "user" none (some "name")]
      { name := "user", source := "user",
        role := some "id", serialize_role := some "id" }).1
    none (some "name") rfl).1 "name" rfl

/-- C2: marshaling a Nested field when no existing child object resolves
(no getter, or the getter returned nothing) fails with `FieldInvalid`
when `allow_create` is false, and with `allow_create` true succeeds,
writing under the field's source a brand-new child object equal to the
nested input marshaled onto an empty object. -/
theorem nested_marshal_create_policy
    (opts : NestedOpts) (fields : List SimpleField) (isPartial : Bool)
    (data out nd : Obj)
    (hro : opts.read_only = false)
    (hsrc : (opts.source == "__self__") = false)
    (hnd : lookup data opts.name = some (.vobj nd))
    (hex : resolve_existing opts isPartial out nd = none) :
    (opts.allow_create = false →
      field_marshal_nested opts fields isPartial data out =
        .error (.fieldInvalid "nested object not found")) ∧
    (opts.allow_create = true → ∀ m,
      mapper_marshal fields (isPartial && opts.allow_partial_updates)
        nd [] = .ok m →
      field_marshal_nested opts fields isPartial data out =
        .ok (setKey out opts.source (.vobj m), none)) := by
  constructor
  · intro hc
    simp [field_marshal_nested, nested_core, hro, hsrc, hnd, hex, hc]
  · intro hc m hm
    simp [field_marshal_nested, nested_core, hro, hsrc, hnd, hex, hc, hm,
      Except.map]

theorem nested_marshal_create_policy_witness :
    field_marshal_nested
      { name := "user", source := "user",
        getter := some (fun _ => none) }
      [{ name := "id", source := "id", required := true },
       { name := "name", source := "name" }]
      false
      [("id", .vstr "2"), ("name", .vstr "bob"),
       ("user", .vobj [("id", .vstr "1")])]
      [] =
      .error (.fieldInvalid "nested object not found") ∧
    field_marshal_nested
      { name := "user", source := "user",
        getter := some (fun _ => none), allow_create := true }
      [{ name := "id", source := "id", required := true },
       { name := "name", source := "name" }]
      false
      [("id", .vstr "2"), ("name", .vstr "bob"),
       ("user", .vobj [("id", .vstr "1")])]
      [] =
      .ok ([("user", .vobj [("id", .vstr "1")])], none) := by
  constructor
  · exact (nested_marshal_create_policy
      { name := "user", source := "user", getter := some (fun _ => none) }
      [{ name := "id", source := "id", required := true },
       { name := "name", source := "name" }]
      false
      [("id", .vstr "2"), ("name", .vstr "bob"),
       ("user", .vobj [("id", .vstr "1")])]
      [] [("id", .vstr "1")] rfl rfl rfl rfl).1 rfl
  · exact (nested_marshal_create_policy
      { name := "user", source := "user", getter := some (fun _ => none),
        allow_create := true }
      [{ name := "id", source := "id", required := true },
       { name := "name", source := "name" }]
      false
      [("id", .vstr "2"), ("name", .vstr "bob"),
       ("user", .vobj [("id", .vstr "1")])]
      [] [("id", .vstr "1")] rfl rfl rfl rfl).2 rfl
      [("id", .vstr "1")] rfl

/-- C3: marshaling a Nested field whose getter resolves an existing child
object: with `allow_updates` true the output holds the nested input merged
onto the existing object and the referenced object is updated to the same
merged value; with `allow_updates` false (and no in-place or partial-update
mode active) the output retains the existing object's current field values
unchanged — whatever values the input supplied — and the referenced object
is untouched. -/
theorem nested_marshal_update_policy
    (opts : NestedOpts) (fields : List SimpleField) (isPartial : Bool)
    (data out nd e : Obj) (g : Obj → Option Obj)
    (hro : opts.read_only = false)
    (hsrc : (opts.source == "__self__") = false)
    (hnd : lookup data opts.name = some (.vobj nd))
    (hg : opts.getter = some g)
    (he : g nd = some e) :
    (opts.allow_updates = true → ∀ m,
      mapper_marshal fields (isPartial && opts.allow_partial_updates)
        nd e = .ok m →
      field_marshal_nested opts fields isPartial data out =
        .ok (setKey out opts.source (.vobj m), some m)) ∧
    (opts.allow_updates = false → opts.allow_updates_in_place = false →
      (opts.allow_partial_updates && isPartial) = false →
      field_marshal_nested opts fields isPartial data out =
        .ok (setKey out opts.source (.vobj e), some e)) := by
  constructor
  · intro hu m hm
    simp [field_marshal_nested, nested_core, resolve_existing, hro, hsrc,
      hnd, hg, he, hu, hm, Except.map]
  · intro hu hip hpu
    simp [field_marshal_nested, nested_core, resolve_existing, hro, hsrc,
      hnd, hg, he, hu, hip, hpu]

theorem nested_marshal_update_policy_witness :
    field_marshal_nested
      { name := "user", source := "user",
        getter := some (fun _ => some [("id", .vstr "1"), ("name", .vstr "mike")]),
        allow_updates := true }
      [{ name := "id", source := "id", required := true },
       { name := "name", source := "name" }]
      false
      [("id", .vstr "2"), ("name", .vstr "bob"),
       ("user", .vobj [("id", .vstr "1"), ("name", .vstr "a new name")])]
      [] =
      .ok ([("user", .vobj [("id", .vstr "1"), ("name", .vstr "a new name")])],
        some [("id", .vstr "1"), ("name", .vstr "a new name")]) ∧
    field_marshal_nested
      { name := "user", source := "user",
        getter := some (fun _ => some [("id", .vstr "1"), ("name", .vstr "mike")]) }
      [{ name := "id", source := "id", required := true },
       { name := "name", source := "name" }]
      false
      [("id", .vstr "2"), ("name", .vstr "bob"),
       ("user", .vobj [("id", .vstr "1"), ("name", .vstr "this should be ignored")])]
      [] =
      .ok ([("user", .vobj [("id", .vstr "1"), ("name", .vstr "mike")])],
        some [("id", .vstr "1"), ("name", .vstr "mike")]) := by
  constructor
  · exact (nested_marshal_update_policy
      { name := "user", source := "user",
        getter := some (fun _ => some [("id", .vstr "1"), ("name", .vstr "mike")]),
        allow_updates := true }
      [{ name := "id", source := "id", required := true },
       { name := "name", source := "name" }]
      false
      [("id", .vstr "2"), ("name", .vstr "bob"),
       ("user", .vobj [("id", .vstr "1"), ("name", .vstr "a new name")])]
      []
      [("id", .vstr "1"), ("name", .vstr "a new name")]
      [("id", .vstr "1"), ("name", .vstr "mike")]
      (fun _ => some [("id", .vstr "1"), ("name", .vstr "mike")])
      rfl rfl rfl rfl rfl).1 rfl
      [("id", .vstr "1"), ("name", .vstr "a new name")] rfl
  · exact (nested_marshal_update_policy
      { name := "user", source := "user",
        getter := some (fun _ => some [("id", .vstr "1"), ("name", .vstr "mike")]) }
      [{ name := "id", source := "id", required := true },
       { name := "name", source := "name" }]
      false
      [("id", .vstr "2"), ("name", .vstr "bob"),
       ("user", .vobj [("id", .vstr "1"), ("name", .vstr "this should be ignored")])]
      []
      [("id", .vstr "1"), ("name", .vstr "this should be ignored")]
      [("id", .vstr "1"), ("name", .vstr "mike")]
      (fun _ => some [("id", .vstr "1"), ("name", .vstr "mike")])
      rfl rfl rfl rfl rfl).2 rfl rfl rfl

/-- C4: a Nested field configured `read_only=True` is skipped entirely by
marshal — the output container and the referenced object are untouched —
while serialize never consults the flag: serializing is identical with the
flag cleared, and a present child object is still serialized under the
field's name. -/
theorem nested_read_only_skips_marshal_only
    (opts : NestedOpts) (fields : List SimpleField) (isPartial : Bool)
    (data out obj out2 : Obj)
    (h : opts.read_only = true) :
    field_marshal_nested opts fields isPartial data out = .ok (out, none) ∧
    field_serialize_nested opts fields obj out2 =
      field_serialize_nested { opts with read_only := false } fields obj out2 ∧
    (∀ o', (opts.source == "__self__") = false →
      lookup obj opts.source = some (.vobj o') →
      field_serialize_nested opts fields obj out2 =
        setKey out2 opts.name (.vobj (mapper_serialize fields o' []))) := by
  refine ⟨by simp [field_marshal_nested, h], rfl, ?_⟩
  intro o' hsrc hl
  simp [field_serialize_nested, hsrc, hl]

theorem nested_read_only_skips_marshal_only_witness :
    field_marshal_nested
      { name := "user", source := "user", read_only := true }
      [{ name := "id", source := "id", required := true, read_only := true },
       { name := "name", source := "name" }]
      false
      [("id", .vstr "2"), ("name", .vstr "bob"),
       ("user", .vobj [("id", .vstr "1"), ("name", .vstr "mike")])]
      [] =
      .ok ([], none) ∧
    field_serialize_nested
      { name := "user", source := "user", read_only := true }
      [{ name := "id", source := "id", required := true, read_only := true },
       { name := "name", source := "name" }]
      [("id", .vstr "2"), ("name", .vstr "bob"),
       ("user", .vobj [("id", .vstr "1"), ("name", .vstr "mike")])]
      [] =
      setKey [] "user"
        (.vobj (mapper_serialize
          [{ name := "id", source := "id", required := true, read_only := true },
           { name := "name", source := "name" }]
          [("id", .vstr "1"), ("name", .vstr "mike")] [])) := by
  have T := nested_read_only_skips_marshal_only
    { name := "user", source := "user", read_only := true }
    [{ name := "id", source := "id", required := true, read_only := true },
     { name := "name", source := "name" }]
    false
    [("id", .vstr "2"), ("name", .vstr "bob"),
     ("user", .vobj [("id", .vstr "1"), ("name", .vstr "mike")])]
    []
    [("id", .vstr "2"), ("name", .vstr "bob"),
     ("user", .vobj [("id", .vstr "1"), ("name", .vstr "mike")])]
    [] rfl
  exact ⟨T.1, T.2.2 [("id", .vstr "1"), ("name", .vstr "mike")] rfl rfl⟩

/-- C5: constructing a Nested field stores the mapper reference without
consulting the registry (construction takes no registry and always
succeeds, whatever name the reference carries); resolution happens only in
`get_mapper`, which raises `MapperError` when the string name is
unregistered or the referenced object is not a valid mapper type, and
returns the mapper's fields otherwise. -/
theorem nested_lazy_mapper_resolution :
    (∀ (ref : MapperRef) (name a s : Option String),
      exceptOk (nested_construct ref name a s) = true) ∧
    (∀ (reg : Registry) (n : String), regLookup reg n = none →
      get_mapper reg (.byName n) =
        .error (.mapperError "mapper is not registered")) ∧
    (∀ (reg : Registry) (n : String),
      regLookup reg n = some .notAMapper →
      get_mapper reg (.byName n) =
        .error (.mapperError "not a valid mapper type")) ∧
    (∀ reg : Registry, get_mapper reg (.direct .notAMapper) =
        .error (.mapperError "not a valid mapper type")) ∧
    (∀ (reg : Registry) (n : String) (fs : List SimpleField),
      regLookup reg n = some (.mapper fs) →
      get_mapper reg (.byName n) = .ok fs) := by
  refine ⟨fun ref name a s => rfl, ?_, ?_, fun reg => rfl, ?_⟩
  · intro reg n h
    simp [get_mapper, h]
  · intro reg n h
    simp [get_mapper, h]
  · intro reg n fs h
    simp [get_mapper, h]

theorem nested_lazy_mapper_resolution_witness :
    exceptOk (nested_construct (.byName "IDontExist") (some "user")
      none none) = true ∧
    get_mapper [] (.byName "UserMapper") =
      .error (.mapperError "mapper is not registered") ∧
    get_mapper [("Foo", .notAMapper)] (.byName "Foo") =
      .error (.mapperError "not a valid mapper type") :=
  ⟨nested_lazy_mapper_resolution.1 (.byName "IDontExist") (some "user")
      none none,
    nested_lazy_mapper_resolution.2.1 [] "UserMapper" rfl,
    nested_lazy_mapper_resolution.2.2.1 [("Foo", .notAMapper)] "Foo" rfl⟩

/-- C6: marshaling a Nested field configured with `source == '__self__'`
marshals the child mapper directly into the parent's output container, so
each child field's value lands under its own source key at top level; on
the concrete test schema the child's `user_name` key appears beside the
sibling `status` key and nothing is nested under the field's name `user`. -/
theorem nested_self_source_flattening
    (opts : NestedOpts) (fields : List SimpleField) (isPartial : Bool)
    (data out nd : Obj)
    (hro : opts.read_only = false)
    (hsrc : opts.source = "__self__")
    (hnd : lookup data opts.name = some (.vobj nd)) :
    (∀ m, mapper_marshal fields (isPartial && opts.allow_partial_updates)
        nd out = .ok m →
      field_marshal_nested opts fields isPartial data out = .ok (m, none)) ∧
    (∀ (jack sv : String),
      field_marshal_nested
        { name := "user", source := "__self__", allow_create := true }
        [{ name := "name", source := "user_name" }]
        false
        [("user", .vobj [("name", .vstr jack)]), ("status", .vstr sv)]
        [("status", .vstr sv)] =
        .ok ([("status", .vstr sv), ("user_name", .vstr jack)], none) ∧
      lookup [("status", .vstr sv), ("user_name", .vstr jack)] "user" =
        none) := by
  constructor
  · intro m hm
    simp [field_marshal_nested, hro, hsrc, hnd, hm, Except.map]
  · intro jack sv
    exact ⟨rfl, rfl⟩

theorem nested_self_source_flattening_witness :
    field_marshal_nested
      { name := "user", source := "__self__", allow_create := true }
      [{ name := "name", source := "user_name" }]
      false
      [("user", .vobj [("name", .vstr "jack")]), ("status", .vstr "200")]
      [("status", .vstr "200")] =
      .ok ([("status", .vstr "200"), ("user_name", .vstr "jack")], none) ∧
    lookup [("status", .vstr "200"), ("user_name", .vstr "jack")] "user" =
      none := by
  have T := nested_self_source_flattening
    { name := "user", source := "__self__", allow_create := true }
    [{ name := "name", source := "user_name" }]
    false
    [("user", .vobj [("name", .vstr "jack")]), ("status", .vstr "200")]
    [("status", .vstr "200")]
    [("name", .vstr "jack")]
    rfl rfl rfl
  exact ⟨T.1 [("status", .vstr "200"), ("user_name", .vstr "jack")] rfl,
    (T.2 "jack" "200").2⟩

/-- C7: a parent marshal with `partial=True` over a Nested field with
`allow_partial_updates=True` propagates `partial=True` into the nested
marshal of the child object found in the output container: the nested
marshal runs with the partial flag set, so on the concrete test schema the
absent required `id` sub-field keeps its existing value with no
missing-required error while the supplied `name` sub-field is updated. -/
theorem nested_partial_update_propagation
    (opts : NestedOpts) (fields : List SimpleField) (data out nd e : Obj)
    (hro : opts.read_only = false)
    (hsrc : (opts.source == "__self__") = false)
    (hg : opts.getter = none)
    (hapu : opts.allow_partial_updates = true)
    (hnd : lookup data opts.name = some (.vobj nd))
    (he : lookup out opts.source = some (.vobj e)) :
    (∀ m, mapper_marshal fields true nd e = .ok m →
      field_marshal_nested opts fields true data out =
        .ok (setKey out opts.source (.vobj m), some m)) ∧
    (∀ (uid uname newname : String),
      field_marshal_nested
        { name := "user", source := "user", allow_partial_updates := true }
        [{ name := "id", source := "id", required := true },
         { name := "name", source := "name" }]
        true
        [("name", .vstr newname), ("user", .vobj [("name", .vstr newname)])]
        [("user", .vobj [("id", .vstr uid), ("name", .vstr uname)])] =
        .ok ([("user", .vobj [("id", .vstr uid), ("name", .vstr newname)])],
          some [("id", .vstr uid), ("name", .vstr newname)])) := by
  constructor
  · intro m hm
    cases hau : opts.allow_updates <;>
      simp [field_marshal_nested, nested_core, resolve_existing, hro, hsrc,
        hg, hapu, hnd, he, hau, hm, Except.map]
  · intro uid uname newname
    rfl

theorem nested_partial_update_propagation_witness :
    field_marshal_nested
      { name := "user", source := "user", allow_partial_updates := true }
      [{ name := "id", source := "id", required := true },
       { name := "name", source := "name" }]
      true
      [("name", .vstr "new user name"),
       ("user", .vobj [("name", .vstr "new user name")])]
      [("user", .vobj [("id", .vstr "1"), ("name", .vstr "existing name")])] =
      .ok ([("user", .vobj [("id", .vstr "1"),
              ("name", .vstr "new user name")])],
        some [("id", .vstr "1"), ("name", .vstr "new user name")]) :=
  (nested_partial_update_propagation
    { name := "user", source := "user", allow_partial_updates := true }
    [{ name := "id", source := "id", required := true },
     { name := "name", source := "name" }]
    [("name", .vstr "new user name"),
     ("user", .vobj [("name", .vstr "new user name")])]
    [("user", .vobj [("id", .vstr "1"), ("name", .vstr "existing name")])]
    [("name", .vstr "new user name")]
    [("id", .vstr "1"), ("name", .vstr "existing name")]
    rfl rfl rfl rfl rfl rfl).2 "1" "existing name" "new user name"

theorem field_name_setter_resets_witness :
    FieldOpts.attribute_name
        (Field.name_set (FieldOpts.init (some "a") (some "b") (some "c")) "new") = none ∧
    FieldOpts.name
        (Field.name_set (FieldOpts.init (some "a") (some "b") (some "c")) "new") = some "new" ∧
    FieldOpts.source
        (Field.name_set (FieldOpts.init (some "a") (some "b") (some "c")) "new") = some "new" :=
  field_name_setter_resets (FieldOpts.init (some "a") (some "b") (some "c"))
    "new" (by decide)

end Kim
